import Mathlib

/-!
Verification of the easl_cli batch/watch pipeline (src/main.rs, src/app.rs)
against its natural-language specification.

Paths are modelled as lists of components (mirroring std::path::PathBuf
component structure); filesystem effects (is_dir, create_dir_all) are
modelled as explicit oracles passed in, since the source consults them
through std::fs.
-/

/-- A filesystem path, as its list of components (PathBuf). -/
abbrev FsPath := List String

/-- Splits a file-name character list at its last dot: returns the stem and
the extension characters. Mirrors how std::path computes file_stem and
extension of a final path component. -/
def lastDotSplit : List Char → Option (List Char × List Char)
  | [] => none
  | c :: cs =>
    match lastDotSplit cs with
    | some (stem, ext) => some (c :: stem, ext)
    | none => if c = '.' then some ([], cs) else none

/-- Replaces the extension of one path component, as PathBuf::set_extension
does on a file name: the part after the last dot is replaced when the stem
is nonempty, otherwise the new extension is appended. -/
def set_extension_name (name ext : String) : String :=
  match lastDotSplit name.toList with
  | some (stem, _) =>
    if stem.isEmpty then name ++ "." ++ ext else String.mk stem ++ "." ++ ext
  | none => name ++ "." ++ ext

/-- The extension of one path component, as Path::extension does on a file
name: the part after the last dot, provided the stem is nonempty. -/
def name_extension (name : String) : Option String :=
  match lastDotSplit name.toList with
  | some (stem, ext) => if stem.isEmpty then none else some (String.mk ext)
  | none => none

/-- PathBuf::set_extension: replaces the extension of the last component. -/
def set_extension : FsPath → String → FsPath
  | [], _ => []
  | [n], e => [set_extension_name n e]
  | n :: m :: rest, e => n :: set_extension (m :: rest) e

/-- Path::extension: the extension of the last component. -/
def path_extension : FsPath → Option String
  | [] => none
  | [n] => name_extension n
  | _ :: m :: rest => path_extension (m :: rest)

/-- Path::strip_prefix of the source, on component lists: removes the
leading components of the base from the path, failing when the base does
not lead the path. -/
def strip_path_base : FsPath → FsPath → Option FsPath
  | [], p => some p
  | _ :: _, [] => none
  | b :: bs, x :: xs => if b = x then strip_path_base bs xs else none

/-- Filesystem oracle for get_output_path_for_file (main.rs 179-221):
whether the input base is a directory, and whether fs::create_dir_all
succeeds on a given directory path. -/
structure FsCtx where
  input_base_is_dir : Bool
  create_dir_ok : FsPath → Bool

/-- get_output_path_for_file (main.rs 179-221): derives the output path for
a source file from the input base and the optional output base. -/
def get_output_path_for_file (fs : FsCtx) (file input_base : FsPath)
    (output_base : Option FsPath) : Except String FsPath :=
  match output_base with
  | some output_dir =>
    if fs.input_base_is_dir then
      match strip_path_base input_base file with
      | none =>
        .error ("Error: Failed to calculate relative path for "
          ++ String.intercalate "/" file)
      | some relative_path =>
        let out_path := set_extension (output_dir ++ relative_path) "wgsl"
        if fs.create_dir_ok out_path.dropLast then .ok out_path
        else
          .error ("Error: Failed to create directory "
            ++ String.intercalate "/" out_path.dropLast)
    else .ok output_dir
  | none => .ok (set_extension file "wgsl")

theorem strip_path_base_append : ∀ (b r : FsPath),
    strip_path_base b (b ++ r) = some r
  | [], _ => rfl
  | x :: bs, r => by
    simpa [strip_path_base] using strip_path_base_append bs r

theorem strip_path_base_some_iff : ∀ (b f r : FsPath),
    strip_path_base b f = some r ↔ f = b ++ r
  | [], f, r => by simp [strip_path_base]
  | _ :: _, [], r => by simp [strip_path_base]
  | b :: bs, x :: xs, r => by
    by_cases h : b = x
    · subst h
      simp [strip_path_base, strip_path_base_some_iff bs xs r]
    · simp only [strip_path_base, if_neg h, List.cons_append]
      refine ⟨fun hs => Option.noConfusion hs, fun hf => ?_⟩
      injection hf with h1 _
      exact absurd h1.symm h

theorem set_extension_same_dir : ∀ (p : FsPath) (e : String),
    (set_extension p e).dropLast = p.dropLast
  | [], _ => rfl
  | [_], _ => rfl
  | _ :: m :: rest, e => by
    have ih := set_extension_same_dir (m :: rest) e
    cases rest with
    | nil => rfl
    | cons r rs =>
      simp only [set_extension] at ih ⊢
      simp [List.dropLast, ih]

/-- Claim C6: the Output Path Mapper. With no output root, the result is
the source path with its extension replaced, in the same directory. With an
output root and a single-file input root, the result is the output root
verbatim. With an output root and a directory input root, the result is the
output root joined with the source file relative to the input root and the
extension replaced, provided intermediate-directory creation succeeds; and
it fails with an error when the source path is not nested under the input
root. -/
theorem c6_output_path_mapper (fs : FsCtx) (file input_base out rel : FsPath) :
    (get_output_path_for_file fs file input_base none
        = .ok (set_extension file "wgsl")
      ∧ (set_extension file "wgsl").dropLast = file.dropLast)
    ∧ (fs.input_base_is_dir = false →
        get_output_path_for_file fs file input_base (some out) = .ok out)
    ∧ (fs.input_base_is_dir = true → file = input_base ++ rel →
        fs.create_dir_ok (set_extension (out ++ rel) "wgsl").dropLast = true →
        get_output_path_for_file fs file input_base (some out)
          = .ok (set_extension (out ++ rel) "wgsl"))
    ∧ (fs.input_base_is_dir = true → (∀ r : FsPath, file ≠ input_base ++ r) →
        ∃ e, get_output_path_for_file fs file input_base (some out)
          = .error e) := by
  refine ⟨⟨rfl, set_extension_same_dir file "wgsl"⟩, ?_, ?_, ?_⟩
  · intro h
    simp [get_output_path_for_file, h]
  · intro hdir hrel hmk
    subst hrel
    simp [get_output_path_for_file, hdir, strip_path_base_append, hmk]
  · intro hdir hnot
    have hstrip : strip_path_base input_base file = none := by
      cases hs : strip_path_base input_base file with
      | none => rfl
      | some r =>
        exact absurd ((strip_path_base_some_iff input_base file r).mp hs)
          (hnot r)
    refine ⟨"Error: Failed to calculate relative path for "
      ++ String.intercalate "/" file, ?_⟩
    simp [get_output_path_for_file, hdir, hstrip]

/-- Witness for C6 at concrete inputs: a directory input base with a nested
source file, creation succeeding. -/
theorem c6_witness :
    get_output_path_for_file ⟨true, fun _ => true⟩ ["in", "sub", "a.easl"]
        ["in"] (some ["out"])
      = .ok ["out", "sub", "a.wgsl"] := by
  have h := (c6_output_path_mapper ⟨true, fun _ => true⟩
    ["in", "sub", "a.easl"] ["in"] ["out"] ["sub", "a.easl"]).2.2.1
    rfl (by decide) (by decide)
  simpa using h

/-- RunConfig (app.rs 11-16): the immutable, ready-to-render configuration
produced by the Run Config Builder. -/
structure RunConfig where
  wgsl : String
  fragment_entry : String
  vertex_entry : String
  triangles : Nat
deriving DecidableEq

/-- One entry of program_info.global_vars, as consumed by
create_run_config (main.rs 562-571): a name, the uniform marker
(none = non-uniform), and the optional default value text. -/
structure GlobalVar where
  name : String
  uniform_info : Option String
  value : Option String
deriving DecidableEq

/-- The compiled-program metadata returned by the external
get_easl_program_info collaborator (main.rs 519). -/
structure ProgramInfo where
  fragment_entries : List String
  vertex_entries : List String
  global_vars : List GlobalVar
deriving DecidableEq

/-- The numeric value of a run of decimal digit characters. -/
def digits_value (cs : List Char) : Nat :=
  cs.foldl (fun n c => n * 10 + (c.toNat - 48)) 0

/-- Rust str::parse on u32 (main.rs 566): an optional leading plus sign,
then one or more digits, rejecting values outside the u32 range. -/
def parse_u32 (s : String) : Option Nat :=
  let cs :=
    match s.toList with
    | c :: rest => if c = '+' then rest else c :: rest
    | [] => []
  if cs ≠ [] ∧ cs.all Char.isDigit then
    if digits_value cs < 4294967296 then some (digits_value cs) else none
  else none

/-- The entry-point resolution rule of create_run_config, applied once with
kind = fragment (main.rs 521-538) and once with kind = vertex
(main.rs 540-557); the two inline blocks in the source are identical up to
the kind and flag words in the messages. -/
def resolve_entry_point (kind flag : String) (explicit : Option String)
    (entries : List String) : Except String String :=
  match explicit with
  | some name =>
    if name ∈ entries then .ok name
    else .error ("No " ++ kind ++ " entry point named " ++ name)
  | none =>
    match entries with
    | [] => .error ("No " ++ kind ++ " entry point found")
    | [only] => .ok only
    | _ =>
      .error ("Multiple " ++ kind ++ " entry points found. Use --" ++ flag
        ++ " to specify one.")

/-- The per-variable condition inside the find_map of the triangle-count
search (main.rs 562-571): the variable must be non-uniform, literally named
triangles, and carry a default value that parses as a u32. -/
def triangles_from_var (var : GlobalVar) : Option Nat :=
  if var.uniform_info.isNone ∧ var.name = "triangles" then
    match var.value with
    | some value => parse_u32 value
    | none => none
  else none

/-- The MissingTriangleCount diagnostic (main.rs 575-579). -/
def missing_triangles_msg : String :=
  "No triangle count specified. Specify it with the --triangles flag or by "
    ++ "defining it in your source file, e.g. (def triangles: u32 5)"

/-- Triangle-count resolution of create_run_config (main.rs 559-581): an
explicit count wins; otherwise the first global variable accepted by
triangles_from_var; otherwise the MissingTriangleCount error. -/
def resolve_triangles (explicit : Option Nat) (global_vars : List GlobalVar) :
    Except String Nat :=
  match explicit with
  | some t => .ok t
  | none =>
    match global_vars.findSome? triangles_from_var with
    | some t => .ok t
    | none => .error missing_triangles_msg

/-- create_run_config (main.rs 512-589). The external compile step is
passed in as its result (try_compile_easl delegates to the compiler
collaborator); each failing stage aborts with its error and no RunConfig. -/
def create_run_config (compile_result : Except String String)
    (program_info : ProgramInfo) (fragment vertex : Option String)
    (triangles : Option Nat) : Except String RunConfig :=
  match compile_result with
  | .error e => .error e
  | .ok wgsl =>
    match resolve_entry_point "fragment" "fragment" fragment
        program_info.fragment_entries with
    | .error e => .error e
    | .ok fragment_entry =>
      match resolve_entry_point "vertex" "vertex" vertex
          program_info.vertex_entries with
      | .error e => .error e
      | .ok vertex_entry =>
        match resolve_triangles triangles program_info.global_vars with
        | .error e => .error e
        | .ok t => .ok ⟨wgsl, fragment_entry, vertex_entry, t⟩

/-- Claim C7: entry-point resolution, applied identically to fragment and
vertex entries. An explicit name is used exactly when it appears in the
metadata set, failing otherwise with an unknown-entry-point error naming
it; with no explicit name, a singleton set resolves to its sole element,
an empty set fails with the no-entry-point error, and a larger set fails
with the ambiguity error. Both failure paths abort create_run_config with
no RunConfig. -/
theorem c7_entry_resolution (kind flag name only : String)
    (entries : List String) :
    (name ∈ entries →
      resolve_entry_point kind flag (some name) entries = .ok name)
    ∧ (name ∉ entries →
      resolve_entry_point kind flag (some name) entries
        = .error ("No " ++ kind ++ " entry point named " ++ name))
    ∧ (resolve_entry_point kind flag none []
        = .error ("No " ++ kind ++ " entry point found"))
    ∧ (resolve_entry_point kind flag none [only] = .ok only)
    ∧ (∀ e1 e2 rest, resolve_entry_point kind flag none (e1 :: e2 :: rest)
        = .error ("Multiple " ++ kind ++ " entry points found. Use --"
          ++ flag ++ " to specify one."))
    ∧ (∀ e w info fragment vertex triangles,
        resolve_entry_point "fragment" "fragment" fragment
            (ProgramInfo.fragment_entries info) = .error e →
        create_run_config (.ok w) info fragment vertex triangles = .error e)
    ∧ (∀ e w info fragment vertex triangles fe,
        resolve_entry_point "fragment" "fragment" fragment
            (ProgramInfo.fragment_entries info) = .ok fe →
        resolve_entry_point "vertex" "vertex" vertex
            (ProgramInfo.vertex_entries info) = .error e →
        create_run_config (.ok w) info fragment vertex triangles
          = .error e) := by
  refine ⟨?_, ?_, rfl, rfl, fun e1 e2 rest => rfl, ?_, ?_⟩
  · intro h
    simp [resolve_entry_point, h]
  · intro h
    simp [resolve_entry_point, h]
  · intro e w info fragment vertex triangles h
    simp [create_run_config, h]
  · intro e w info fragment vertex triangles fe hf hv
    simp [create_run_config, hf, hv]

/-- Witness for C7 at concrete metadata: an explicit present name, an
explicit absent name, and the builder aborting on an absent vertex name. -/
theorem c7_witness :
    resolve_entry_point "fragment" "fragment" (some "frag_main")
        ["frag_main", "frag_alt"] = .ok "frag_main"
    ∧ resolve_entry_point "vertex" "vertex" (some "missing") ["vert_main"]
        = .error "No vertex entry point named missing"
    ∧ create_run_config (.ok "wgsl text")
        ⟨["frag_main"], ["vert_main"], []⟩ none (some "missing") (some 3)
        = .error "No vertex entry point named missing" := by
  refine ⟨?_, ?_, ?_⟩
  · exact (c7_entry_resolution "fragment" "fragment" "frag_main" ""
      ["frag_main", "frag_alt"]).1 (by decide)
  · exact (c7_entry_resolution "vertex" "vertex" "missing" ""
      ["vert_main"]).2.1 (by decide)
  · exact (c7_entry_resolution "" "" "" "" []).2.2.2.2.2.2 "No vertex entry point named missing"
      "wgsl text" ⟨["frag_main"], ["vert_main"], []⟩ none (some "missing")
      (some 3) "frag_main" (by rfl) (by rfl)

/-- Claim C8: triangle-count resolution. An explicit count always wins;
otherwise the first global variable that is non-uniform, literally named
triangles, and has an integer-parseable default supplies the count; uniform
variables, other names, and unparseable defaults are skipped; with no
explicit count and no such variable, resolution fails with the
missing-triangle-count error and create_run_config produces no RunConfig. -/
theorem c8_triangle_resolution (t : Nat) (gvs rest : List GlobalVar)
    (var : GlobalVar) :
    (resolve_triangles (some t) gvs = .ok t)
    ∧ (resolve_triangles none [] = .error missing_triangles_msg)
    ∧ (∀ n, triangles_from_var var = some n →
        resolve_triangles none (var :: rest) = .ok n)
    ∧ (triangles_from_var var = none →
        resolve_triangles none (var :: rest) = resolve_triangles none rest)
    ∧ (∀ s, triangles_from_var ⟨"triangles", none, some s⟩ = parse_u32 s)
    ∧ (∀ nm u val, triangles_from_var ⟨nm, some u, val⟩ = none)
    ∧ (∀ nm val, nm ≠ "triangles" →
        triangles_from_var ⟨nm, none, val⟩ = none)
    ∧ (∀ e w f v gvs2,
        resolve_triangles none gvs2 = .error e →
        create_run_config (.ok w) ⟨[f], [v], gvs2⟩ none none none
          = .error e) := by
  refine ⟨rfl, rfl, ?_, ?_, ?_, ?_, ?_, ?_⟩
  · intro n h
    simp [resolve_triangles, List.findSome?, h]
  · intro h
    simp [resolve_triangles, List.findSome?, h]
  · intro s
    simp [triangles_from_var]
  · intro nm u val
    simp [triangles_from_var]
  · intro nm val h
    simp [triangles_from_var, h]
  · intro e w f v gvs2 h
    simp [create_run_config, resolve_entry_point, h]

/-- Witness for C8 at concrete inputs: a uniform variable named triangles
is skipped, the following non-uniform triangles variable with default 100
is picked, and an empty global list makes the builder fail. -/
theorem c8_witness :
    resolve_triangles none
        [⟨"triangles", some "uniform", some "7"⟩,
         ⟨"triangles", none, some "100"⟩]
      = .ok 100
    ∧ create_run_config (.ok "wgsl text") ⟨["f"], ["v"], []⟩ none none none
      = .error missing_triangles_msg := by
  constructor
  · have hskip := (c8_triangle_resolution 0 [] [⟨"triangles", none, some "100"⟩]
      ⟨"triangles", some "uniform", some "7"⟩).2.2.2.1 (by rfl)
    have hpick := (c8_triangle_resolution 0 [] []
      ⟨"triangles", none, some "100"⟩).2.2.1 100 (by rfl)
    rw [hskip, hpick]
  · exact (c8_triangle_resolution 0 [] [] ⟨"", none, none⟩).2.2.2.2.2.2.2
      missing_triangles_msg "wgsl text" "f" "v" [] (by rfl)

/-- The state of the shared Mutex around the PendingSlot at the moment a
thread calls lock: free, currently held by the other thread, or poisoned. -/
inductive LockAttempt where
  | acquirable
  | contended
  | poisoned
deriving DecidableEq

/-- What a call to lock does. -/
inductive LockOutcome where
  | acquired_immediately
  | acquired_after_blocking
  | err_poisoned
deriving DecidableEq

/-- std::sync::Mutex::lock, per its documented contract (the Mutex is an
external collaborator): the call blocks the current thread while another
thread holds the lock and then acquires it; it returns Err exactly when the
mutex is poisoned. It never returns empty-handed merely because the lock
was contended (that is try_lock, which the source does not use). -/
def mutex_lock : LockAttempt → LockOutcome
  | .acquirable => .acquired_immediately
  | .contended => .acquired_after_blocking
  | .poisoned => .err_poisoned

/-- Outcome of the consumer-side take in UserSketch::update. -/
structure TakeResult where
  taken : Option RunConfig
  slot_after : Option RunConfig
  blocked : Bool
deriving DecidableEq

/-- The consumer side of the Hot-Reload Bridge (app.rs 84-88): per frame,
lock the shared slot; on Ok take its value (emptying it), on Err (poison)
proceed with no update. The blocked flag records whether mutex_lock had to
wait for the producer before returning Ok. -/
def sketch_take_config (lock : LockAttempt) (slot : Option RunConfig) :
    TakeResult :=
  match mutex_lock lock with
  | .acquired_immediately => ⟨slot, none, false⟩
  | .acquired_after_blocking => ⟨slot, none, true⟩
  | .err_poisoned => ⟨none, slot, false⟩

/-- Outcome of one producer-side publish attempt in the run-watch thread. -/
structure PublishResult where
  slot_after : Option RunConfig
  reported_reload : Bool
  reported_error : Bool
  blocked : Bool
deriving DecidableEq

/-- The producer side of the Hot-Reload Bridge (main.rs 663-673): after a
rebuild attempt, on Ok lock the slot and overwrite it with the new config
(printing the reload notice), doing nothing at all when the lock call
errors; on Err print the diagnostic and leave the slot alone. -/
def producer_publish_step (build_result : Except String RunConfig)
    (lock : LockAttempt) (slot : Option RunConfig) : PublishResult :=
  match build_result with
  | .ok new_config =>
    match mutex_lock lock with
    | .acquired_immediately => ⟨some new_config, true, false, false⟩
    | .acquired_after_blocking => ⟨some new_config, true, false, true⟩
    | .err_poisoned => ⟨slot, false, false, false⟩
  | .error _ => ⟨slot, false, true, false⟩

/-- A concrete configuration used by the counterexamples. -/
def demo_config : RunConfig := ⟨"demo wgsl", "frag_main", "vert_main", 1⟩

/-- Claim C1 as stated is false on the code: the consumer acquires the slot
with Mutex::lock, not try_lock, so at a lock that cannot be acquired
immediately (contended, held by the producer) the frame blocks until the
producer releases it and then does receive the pending update, instead of
proceeding with no update. -/
theorem c1_take_contended_counterexample :
    (sketch_take_config .contended (some demo_config)).blocked = true
    ∧ (sketch_take_config .contended (some demo_config)).taken
        = some demo_config := ⟨rfl, rfl⟩

/-- Claim C1 amended: the consumer-side take proceeds with no update only
when the lock is poisoned; when the lock is free it takes the pending value
at once, and when the lock is contended it blocks until the producer
releases the lock and then takes the pending value. -/
theorem c1_take_amended (slot : Option RunConfig) :
    sketch_take_config .poisoned slot = ⟨none, slot, false⟩
    ∧ sketch_take_config .acquirable slot = ⟨slot, none, false⟩
    ∧ sketch_take_config .contended slot = ⟨slot, none, true⟩ :=
  ⟨rfl, rfl, rfl⟩

/-- Claim C4: PendingSlot semantics. publish(A) then publish(B) with no
intervening take leaves only B in the slot (A is silently discarded); the
next take yields exactly B and empties the slot; the take after that yields
nothing. -/
theorem c4_slot_last_write_wins (A B : RunConfig) (s0 : Option RunConfig) :
    (producer_publish_step (.ok B) .acquirable
        (producer_publish_step (.ok A) .acquirable s0).slot_after).slot_after
      = some B
    ∧ (sketch_take_config .acquirable
        (producer_publish_step (.ok B) .acquirable
          (producer_publish_step (.ok A) .acquirable s0).slot_after
        ).slot_after).taken = some B
    ∧ (sketch_take_config .acquirable
        (sketch_take_config .acquirable
          (producer_publish_step (.ok B) .acquirable
            (producer_publish_step (.ok A) .acquirable s0).slot_after
          ).slot_after).slot_after).taken = none :=
  ⟨rfl, rfl, rfl⟩

/-- Claim C9: in run-watch, a freshly built RunConfig reaches the shared
slot exactly when the producer-side lock call succeeds; when the lock call
errors (poisoned mutex), the new config is silently dropped: no slot
update, no reload notice, no error report, so the consumer keeps the
previous configuration. -/
theorem c9_publish_poisoned (cfg : RunConfig) (slot : Option RunConfig) :
    producer_publish_step (.ok cfg) .poisoned slot = ⟨slot, false, false, false⟩
    ∧ (producer_publish_step (.ok cfg) .acquirable slot).slot_after = some cfg
    ∧ (producer_publish_step (.ok cfg) .contended slot).slot_after
        = some cfg :=
  ⟨rfl, rfl, rfl⟩

/-- The Content Change Cache (main.rs 233): the HashMap from watched path
to last-seen content, as an association list in which the most recent
insertion shadows older entries. -/
abbrev ContentCache := List (FsPath × String)

/-- HashMap::get on the cache. -/
def cache_get : ContentCache → FsPath → Option String
  | [], _ => none
  | (p, c) :: rest, path => if p = path then some c else cache_get rest path

/-- HashMap::insert on the cache: the new binding shadows any older one. -/
def cache_insert (cache : ContentCache) (path : FsPath) (content : String) :
    ContentCache :=
  (path, content) :: cache

/-- What one path of one Modify event led to in the compile watch loop. -/
inductive PathEventOutcome where
  | not_easl
  | read_error
  | unchanged
  | output_path_error
  | recompiled (succeeded : Bool)
deriving DecidableEq

/-- Whether an Except is the Ok case. -/
def except_succeeded {e a : Type} : Except e a → Bool
  | .ok _ => true
  | .error _ => false

/-- The body of the compile watch loop for one path of a Modify event
(main.rs 272-307): skip paths without the easl extension; a failed read is
reported and skipped with no cache update; unchanged content is skipped;
a failed output-path derivation is reported and skipped with no cache
update; otherwise the compile is attempted (success or failure) and the
cache entry is updated to the newly read content. The read result and the
compile attempt result are passed in as oracles for the filesystem and the
external compiler. -/
def handle_modify_path (fs : FsCtx) (input : FsPath) (output : Option FsPath)
    (cache : ContentCache) (path : FsPath) (read_result : Option String)
    (compile_result : Except String Unit) :
    ContentCache × PathEventOutcome :=
  if path_extension path ≠ some "easl" then (cache, .not_easl)
  else
    match read_result with
    | none => (cache, .read_error)
    | some current_content =>
      if cache_get cache path = some current_content then (cache, .unchanged)
      else
        match get_output_path_for_file fs path input output with
        | .error _ => (cache, .output_path_error)
        | .ok _ =>
          (cache_insert cache path current_content,
            .recompiled (except_succeeded compile_result))

/-- Claim C2 as stated is false on the code: a Modify event for a changed
easl file whose output-path derivation fails (here: fs::create_dir_all
fails for the output directory) is skipped by a continue that comes before
the cache insertion, so the Content Change Cache keeps no entry for the
path even though the recompilation attempt (which includes output-path
derivation) was made and failed. -/
theorem c2_cache_update_counterexample :
    handle_modify_path ⟨true, fun _ => false⟩ ["watched"] (some ["out"]) []
        ["watched", "a.easl"] (some "new content") (.ok ())
      = ([], .output_path_error)
    ∧ cache_get
        (handle_modify_path ⟨true, fun _ => false⟩ ["watched"] (some ["out"])
          [] ["watched", "a.easl"] (some "new content") (.ok ())).1
        ["watched", "a.easl"] = none := ⟨rfl, rfl⟩

/-- Claim C2 amended: for a modification event whose content was read and
found changed, the cache entry is updated to the newly read content after
the compile attempt whether the compile succeeds or fails — but only when
output-path derivation succeeds; when output-path derivation fails, the
event is skipped with no cache update. -/
theorem c2_cache_update_amended (fs : FsCtx) (input : FsPath)
    (output : Option FsPath) (cache : ContentCache) (path : FsPath)
    (content : String) (compile_result : Except String Unit)
    (hext : path_extension path = some "easl")
    (hchanged : cache_get cache path ≠ some content) :
    (except_succeeded (get_output_path_for_file fs path input output) = true →
      (handle_modify_path fs input output cache path (some content)
          compile_result).1
        = cache_insert cache path content)
    ∧ (except_succeeded (get_output_path_for_file fs path input output)
          = false →
      (handle_modify_path fs input output cache path (some content)
          compile_result).1 = cache) := by
  constructor
  · intro hok
    cases hg : get_output_path_for_file fs path input output with
    | ok p => simp [handle_modify_path, hext, hchanged, hg]
    | error e => rw [hg] at hok; exact absurd hok (by simp [except_succeeded])
  · intro herr
    cases hg : get_output_path_for_file fs path input output with
    | ok p => rw [hg] at herr; exact absurd herr (by simp [except_succeeded])
    | error e => simp [handle_modify_path, hext, hchanged, hg]

/-- Witness for C2 amended at concrete inputs: with a derivable output path
and a failing compile, the cache is still updated to the new content. -/
theorem c2_witness :
    (handle_modify_path ⟨false, fun _ => true⟩ ["a.easl"] none []
        ["a.easl"] (some "broken source") (.error "compile failed")).1
      = cache_insert [] ["a.easl"] "broken source" :=
  (c2_cache_update_amended ⟨false, fun _ => true⟩ ["a.easl"] none []
    ["a.easl"] "broken source" (.error "compile failed") (by rfl)
    (by simp [cache_get])).1 (by rfl)

/-- One message received from the filesystem event channel in the compile
watch loop (main.rs 265-316). A Modify event carries, per path, the read
result and compile-attempt result oracles consumed by handle_modify_path. -/
inductive CompileRecvMsg where
  | modify (changes : List (FsPath × Option String × Except String Unit))
  | other_event
  | watch_error
  | channel_error

/-- The error compile_file returns when rx.recv() fails (main.rs 312-314). -/
def channel_error_msg : String := "Error: Channel receive error"

/-- The compile watch loop (main.rs 265-316) over a finite trace of channel
messages: Modify events are folded through handle_modify_path; other events
and watch errors are ignored; a channel receive error returns an error from
compile_file. The result is none while the trace ends with the loop still
running, and some of the final cache and returned value when the loop
exits. -/
def compile_watch_loop (fs : FsCtx) (input : FsPath) (output : Option FsPath) :
    ContentCache → List CompileRecvMsg →
    Option (ContentCache × Except String Unit)
  | _, [] => none
  | cache, msg :: rest =>
    match msg with
    | .modify changes =>
      compile_watch_loop fs input output
        (changes.foldl
          (fun c change =>
            (handle_modify_path fs input output c change.1 change.2.1
              change.2.2).1)
          cache)
        rest
    | .other_event => compile_watch_loop fs input output cache rest
    | .watch_error => compile_watch_loop fs input output cache rest
    | .channel_error => some (cache, .error channel_error_msg)

/-- compile_file with watch = true (main.rs 223-320): the initial
compile_once and the watcher setup abort with their errors; afterwards the
watch loop runs. The initial compile result, watcher setup result and
initial cache are passed in as oracles. -/
def compile_file_watch (initial_compile watcher_setup : Except String Unit)
    (initial_cache : ContentCache) (fs : FsCtx) (input : FsPath)
    (output : Option FsPath) (msgs : List CompileRecvMsg) :
    Option (Except String Unit) :=
  match initial_compile with
  | .error e => some (.error e)
  | .ok _ =>
    match watcher_setup with
    | .error e => some (.error e)
    | .ok _ =>
      (compile_watch_loop fs input output initial_cache msgs).map
        (fun r => r.2)

/-- main (main.rs 695-719): an Err from the subcommand is printed and the
process exits with code 1; otherwise the exit code is 0. -/
def main_exit_code : Except String Unit → Nat
  | .ok _ => 0
  | .error _ => 1

theorem compile_watch_loop_only_errors (fs : FsCtx) (input : FsPath)
    (output : Option FsPath) :
    ∀ (msgs : List CompileRecvMsg) (cache : ContentCache)
      (r : ContentCache × Except String Unit),
      compile_watch_loop fs input output cache msgs = some r →
      r.2 = .error channel_error_msg := by
  intro msgs
  induction msgs with
  | nil => intro cache r h; exact absurd h (by simp [compile_watch_loop])
  | cons msg rest ih =>
    intro cache r h
    cases msg with
    | modify changes => exact ih _ r h
    | other_event => exact ih _ r h
    | watch_error => exact ih _ r h
    | channel_error =>
      simp only [compile_watch_loop, Option.some.injEq] at h
      rw [← h]

/-- Claim C10: compile watch mode never returns success. Every terminating
execution of compile_file_watch — whether the initial compilation or the
watcher setup failed, or the watch loop exited on a channel receive
error — yields an Err, which main turns into process exit code 1. -/
theorem c10_compile_watch_never_succeeds
    (initial_compile watcher_setup : Except String Unit)
    (initial_cache : ContentCache) (fs : FsCtx) (input : FsPath)
    (output : Option FsPath) (msgs : List CompileRecvMsg)
    (r : Except String Unit)
    (h : compile_file_watch initial_compile watcher_setup initial_cache fs
      input output msgs = some r) :
    except_succeeded r = false ∧ main_exit_code r = 1 := by
  have hr : ∃ e, r = Except.error e := by
    cases initial_compile with
    | error e =>
      simp only [compile_file_watch, Option.some.injEq] at h
      exact ⟨e, h.symm⟩
    | ok _ =>
      cases watcher_setup with
      | error e =>
        simp only [compile_file_watch, Option.some.injEq] at h
        exact ⟨e, h.symm⟩
      | ok _ =>
        simp only [compile_file_watch, Option.map_eq_some'] at h
        obtain ⟨p, hp, hpr⟩ := h
        refine ⟨channel_error_msg, ?_⟩
        rw [← hpr]
        exact compile_watch_loop_only_errors fs input output msgs
          initial_cache p hp
  obtain ⟨e, he⟩ := hr
  subst he
  exact ⟨rfl, rfl⟩

/-- Witness for C10 at a concrete trace: a successful initial compile and
setup followed by a channel receive error terminates with exit code 1. -/
theorem c10_witness :
    compile_file_watch (.ok ()) (.ok ()) [] ⟨false, fun _ => true⟩
        ["a.easl"] none [.channel_error]
      = some (.error channel_error_msg)
    ∧ except_succeeded (Except.error channel_error_msg : Except String Unit)
        = false
    ∧ main_exit_code (.error channel_error_msg) = 1 := by
  refine ⟨rfl, ?_, ?_⟩
  · exact (c10_compile_watch_never_succeeds (.ok ()) (.ok ()) []
      ⟨false, fun _ => true⟩ ["a.easl"] none [.channel_error]
      (.error channel_error_msg) rfl).1
  · exact (c10_compile_watch_never_succeeds (.ok ()) (.ok ()) []
      ⟨false, fun _ => true⟩ ["a.easl"] none [.channel_error]
      (.error channel_error_msg) rfl).2

/-- One message received from the filesystem event channel in the run-watch
watcher thread (main.rs 638-687). A Modify, Create or Remove event whose
path matches the watched file and whose freshly read content differs from
the cached content is summarised as relevant_change, carrying the result of
the create_run_config rebuild; everything else the loop ignores is
summarised as irrelevant_event. -/
inductive RunRecvMsg where
  | relevant_change (build_result : Except String RunConfig)
  | irrelevant_event
  | watch_error
  | channel_error

/-- The run-watch watcher-thread loop (main.rs 638-687) over a finite trace
of channel messages, tracking the shared slot: relevant changes go through
producer_publish_step; other events and watch errors are ignored; a channel
receive error prints a message and breaks, ending the thread. The result is
none while the trace ends with the loop still running, and some of the
final slot when the loop breaks — the break carries no error value at
all. -/
def run_watch_loop (lock : LockAttempt) :
    Option RunConfig → List RunRecvMsg → Option (Option RunConfig)
  | _, [] => none
  | slot, msg :: rest =>
    match msg with
    | .relevant_change build_result =>
      run_watch_loop lock
        (producer_publish_step build_result lock slot).slot_after rest
    | .irrelevant_event => run_watch_loop lock slot rest
    | .watch_error => run_watch_loop lock slot rest
    | .channel_error => some slot

/-- The value run_file itself returns (main.rs 591-693): an initial read or
config-build failure is returned as the error; otherwise the sketch window
runs and run_file returns Ok regardless of anything the watcher thread did,
including the watcher loop having broken on a channel receive error. -/
def run_file_result (initial_config : Except String RunConfig) :
    Except String Unit :=
  match initial_config with
  | .error e => .error e
  | .ok _ => .ok ()

/-- Claim C3 as stated is false on the code for run --watch: a channel
receive error does terminate the watcher loop, but only by breaking out of
the spawned thread after printing a message; run_file still returns Ok and
the process exit code on clean shutdown is 0, not nonzero. -/
theorem c3_run_watch_counterexample :
    run_watch_loop .acquirable (some demo_config) [.channel_error]
      = some (some demo_config)
    ∧ run_file_result (.ok demo_config) = .ok ()
    ∧ main_exit_code (run_file_result (.ok demo_config)) = 0 :=
  ⟨rfl, rfl, rfl⟩

/-- Claim C3 amended: a receive error on the event channel terminates the
watch loop in both watch modes, but it propagates to a nonzero process exit
only for compile --watch, where the loop returns the channel error and main
exits 1; in run --watch the error only ends the watcher thread loop (after
printing a message), run_file still returns Ok, and the process exits 0 on
clean shutdown. -/
theorem c3_channel_error_amended (fs : FsCtx) (input : FsPath)
    (output : Option FsPath) (cache : ContentCache)
    (rest : List CompileRecvMsg) (lock : LockAttempt)
    (slot : Option RunConfig) (rrest : List RunRecvMsg) (init : RunConfig) :
    compile_watch_loop fs input output cache (.channel_error :: rest)
      = some (cache, .error channel_error_msg)
    ∧ main_exit_code (.error channel_error_msg) = 1
    ∧ run_watch_loop lock slot (.channel_error :: rrest) = some slot
    ∧ run_file_result (.ok init) = .ok ()
    ∧ main_exit_code (run_file_result (.ok init)) = 0 :=
  ⟨rfl, rfl, rfl, rfl, rfl⟩

/-- Observable record of a batch run: the files whose per-file handling was
actually reached, and the files pushed onto the failed list. -/
structure BatchTrace where
  attempted : List FsPath
  failed : List FsPath
deriving DecidableEq

/-- One iteration of the compile batch loop (main.rs 343-358): derive the
output path, recording a failure and moving on when that errors; otherwise
attempt the compile (via the compile_result oracle), recording a failure
when it errors. Every branch continues with the next file. -/
def compile_batch_step (fs : FsCtx) (input : FsPath) (output : Option FsPath)
    (compile_result : FsPath → Except String Unit) (acc : BatchTrace)
    (file : FsPath) : BatchTrace :=
  match get_output_path_for_file fs file input output with
  | .error _ => ⟨acc.attempted ++ [file], acc.failed ++ [file]⟩
  | .ok _ =>
    match compile_result file with
    | .error _ => ⟨acc.attempted ++ [file], acc.failed ++ [file]⟩
    | .ok _ => ⟨acc.attempted ++ [file], acc.failed⟩

/-- The directory branch of compile_once (main.rs 326-364): an empty
resolved set is a distinct error before any batch runs; otherwise the batch
loop runs over every file and the aggregate is Ok exactly when the failed
list stayed empty. -/
def compile_once_dir (fs : FsCtx) (input : FsPath) (output : Option FsPath)
    (compile_result : FsPath → Except String Unit) (files : List FsPath) :
    BatchTrace × Except String Unit :=
  if files.isEmpty then
    (⟨[], []⟩, .error ("No .easl files found in directory "
      ++ String.intercalate "/" input))
  else
    let trace :=
      files.foldl (compile_batch_step fs input output compile_result) ⟨[], []⟩
    (trace,
      if trace.failed.isEmpty then .ok ()
      else .error ("Failed to compile " ++ toString trace.failed.length
        ++ " file(s)"))

/-- One iteration of the check batch loop (main.rs 410-414). -/
def check_batch_step (check_result : FsPath → Except String Unit)
    (acc : BatchTrace) (file : FsPath) : BatchTrace :=
  match check_result file with
  | .error _ => ⟨acc.attempted ++ [file], acc.failed ++ [file]⟩
  | .ok _ => ⟨acc.attempted ++ [file], acc.failed⟩

/-- The directory branch of check_file (main.rs 392-424). -/
def check_file_dir (input : FsPath)
    (check_result : FsPath → Except String Unit) (files : List FsPath) :
    BatchTrace × Except String Unit :=
  if files.isEmpty then
    (⟨[], []⟩, .error ("No .easl files found in directory "
      ++ String.intercalate "/" input))
  else
    let trace := files.foldl (check_batch_step check_result) ⟨[], []⟩
    (trace,
      if trace.failed.isEmpty then .ok ()
      else .error ("Failed to typecheck " ++ toString trace.failed.length
        ++ " file(s)"))

/-- The format batch loop (main.rs 464-499). Unlike the compile loop, the
relative-path computation and the directory creation inside the loop use
the question-mark operator: their errors return from format_file at once,
abandoning the remaining files; only format_single_file failures are
recorded in the failed list and stepped past. -/
def format_dir_go (input : FsPath) (output : Option FsPath)
    (create_dir_ok : FsPath → Bool)
    (format_result : FsPath → Except String Unit) :
    List FsPath → BatchTrace → BatchTrace × Except String Unit
  | [], acc => (acc, .ok ())
  | file :: rest, acc =>
    match output with
    | some output_dir =>
      match strip_path_base input file with
      | none =>
        (acc, .error ("Error: Failed to calculate relative path for "
          ++ String.intercalate "/" file))
      | some relative_path =>
        if create_dir_ok (output_dir ++ relative_path).dropLast then
          match format_result file with
          | .error _ =>
            format_dir_go input output create_dir_ok format_result rest
              ⟨acc.attempted ++ [file], acc.failed ++ [file]⟩
          | .ok _ =>
            format_dir_go input output create_dir_ok format_result rest
              ⟨acc.attempted ++ [file], acc.failed⟩
        else
          (acc, .error ("Error: Failed to create directory "
            ++ String.intercalate "/" (output_dir ++ relative_path).dropLast))
    | none =>
      match format_result file with
      | .error _ =>
        format_dir_go input output create_dir_ok format_result rest
          ⟨acc.attempted ++ [file], acc.failed ++ [file]⟩
      | .ok _ =>
        format_dir_go input output create_dir_ok format_result rest
          ⟨acc.attempted ++ [file], acc.failed⟩

/-- The directory branch of format_file (main.rs 447-510): empty-set error,
then the loop; a loop-level error is returned as is, otherwise the
aggregate is Ok exactly when the failed list stayed empty. -/
def format_file_dir (input : FsPath) (output : Option FsPath)
    (create_dir_ok : FsPath → Bool)
    (format_result : FsPath → Except String Unit) (files : List FsPath) :
    BatchTrace × Except String Unit :=
  if files.isEmpty then
    (⟨[], []⟩, .error ("No .easl files found in directory "
      ++ String.intercalate "/" input))
  else
    let r := format_dir_go input output create_dir_ok format_result files
      ⟨[], []⟩
    match r.2 with
    | .error e => (r.1, .error e)
    | .ok _ =>
      (r.1,
        if r.1.failed.isEmpty then .ok ()
        else .error ("Failed to format " ++ toString r.1.failed.length
          ++ " file(s)"))

theorem compile_batch_attempted (fs : FsCtx) (input : FsPath)
    (output : Option FsPath) (cr : FsPath → Except String Unit) :
    ∀ (files : List FsPath) (acc : BatchTrace),
      (files.foldl (compile_batch_step fs input output cr) acc).attempted
        = acc.attempted ++ files := by
  intro files
  induction files with
  | nil => intro acc; simp
  | cons f rest ih =>
    intro acc
    have hstep : (compile_batch_step fs input output cr acc f).attempted
        = acc.attempted ++ [f] := by
      unfold compile_batch_step
      cases get_output_path_for_file fs f input output with
      | error e => rfl
      | ok p =>
        cases cr f with
        | error e => rfl
        | ok u => rfl
    simp only [List.foldl_cons, ih, hstep]
    simp

theorem check_batch_attempted (chk : FsPath → Except String Unit) :
    ∀ (files : List FsPath) (acc : BatchTrace),
      (files.foldl (check_batch_step chk) acc).attempted
        = acc.attempted ++ files := by
  intro files
  induction files with
  | nil => intro acc; simp
  | cons f rest ih =>
    intro acc
    have hstep : (check_batch_step chk acc f).attempted
        = acc.attempted ++ [f] := by
      unfold check_batch_step
      cases chk f with
      | error e => rfl
      | ok u => rfl
    simp only [List.foldl_cons, ih, hstep]
    simp

theorem format_dir_go_none_complete (input : FsPath)
    (cok : FsPath → Bool) (fr : FsPath → Except String Unit) :
    ∀ (files : List FsPath) (acc : BatchTrace),
      (format_dir_go input none cok fr files acc).2 = .ok ()
      ∧ (format_dir_go input none cok fr files acc).1.attempted
          = acc.attempted ++ files := by
  intro files
  induction files with
  | nil => intro acc; exact ⟨rfl, by simp [format_dir_go]⟩
  | cons f rest ih =>
    intro acc
    cases hf : fr f with
    | error e =>
      refine ⟨?_, ?_⟩
      · simp only [format_dir_go, hf]
        exact (ih _).1
      · simp only [format_dir_go, hf]
        rw [(ih _).2]
        simp
    | ok u =>
      refine ⟨?_, ?_⟩
      · simp only [format_dir_go, hf]
        exact (ih _).1
      · simp only [format_dir_go, hf]
        rw [(ih _).2]
        simp

theorem format_dir_go_some_complete (input out : FsPath)
    (cok : FsPath → Bool) (fr : FsPath → Except String Unit)
    (hcok : ∀ p, cok p = true) :
    ∀ (files : List FsPath) (acc : BatchTrace),
      (∀ f ∈ files, ∃ r, f = input ++ r) →
      (format_dir_go input (some out) cok fr files acc).2 = .ok ()
      ∧ (format_dir_go input (some out) cok fr files acc).1.attempted
          = acc.attempted ++ files := by
  intro files
  induction files with
  | nil => intro acc _; exact ⟨rfl, by simp [format_dir_go]⟩
  | cons f rest ih =>
    intro acc hnest
    obtain ⟨r, hr⟩ := hnest f (List.mem_cons_self f rest)
    have hrest : ∀ g ∈ rest, ∃ r, g = input ++ r := by
      intro g hg
      exact hnest g (List.mem_cons_of_mem f hg)
    subst hr
    cases hf : fr (input ++ r) with
    | error e =>
      refine ⟨?_, ?_⟩
      · simp only [format_dir_go, strip_path_base_append, hcok, hf, if_true]
        exact (ih _ hrest).1
      · simp only [format_dir_go, strip_path_base_append, hcok, hf, if_true]
        rw [(ih _ hrest).2]
        simp
    | ok u =>
      refine ⟨?_, ?_⟩
      · simp only [format_dir_go, strip_path_base_append, hcok, hf, if_true]
        exact (ih _ hrest).1
      · simp only [format_dir_go, strip_path_base_append, hcok, hf, if_true]
        rw [(ih _ hrest).2]
        simp

theorem batch_ok_iff_failed_empty (t : BatchTrace) (msg : String) :
    (if t.failed.isEmpty then (Except.ok () : Except String Unit)
      else .error msg) = .ok () ↔ t.failed = [] := by
  by_cases h : t.failed = []
  · simp [h]
  · have hie : t.failed.isEmpty = false := by
      cases hf : t.failed with
      | nil => exact absurd hf h
      | cons a l => rfl
    simp [hie, h]

/-- Claim C5 as stated is false on the code for format with an output root:
when creating the output directory for the first file fails, the
question-mark operator aborts the whole format batch at once — the per-file
operation is attempted on no file (the second file is never reached), and
the batch fails (exit code 1) although the failed-file list is empty,
violating both the always-attempts-every-file clause and the
success-iff-failed-empty equivalence. -/
theorem c5_batch_counterexample :
    (format_file_dir ["in"] (some ["out"]) (fun _ => false) (fun _ => .ok ())
        [["in", "a.easl"], ["in", "b.easl"]]).1.attempted = []
    ∧ (format_file_dir ["in"] (some ["out"]) (fun _ => false)
        (fun _ => .ok ())
        [["in", "a.easl"], ["in", "b.easl"]]).1.failed = []
    ∧ ∃ e, (format_file_dir ["in"] (some ["out"]) (fun _ => false)
        (fun _ => .ok ())
        [["in", "a.easl"], ["in", "b.easl"]]).2 = .error e :=
  ⟨rfl, rfl, ⟨_, rfl⟩⟩

/-- Claim C5 amended: for compile and check batches over a nonempty
resolved directory set, and for format batches without an output root, the
runner attempts the per-file operation on every file even after earlier
failures and the batch succeeds exactly when the failed list is empty. For
format with an output root the same holds provided every file relativizes
against the input root and every directory creation succeeds; a relativize
or directory-creation failure instead aborts the remaining format batch
immediately with an error. -/
theorem c5_batch_amended (fs : FsCtx) (input out : FsPath)
    (output : Option FsPath) (cok : FsPath → Bool)
    (cr chk fr : FsPath → Except String Unit) (files : List FsPath)
    (hne : files ≠ []) :
    ((compile_once_dir fs input output cr files).1.attempted = files
      ∧ ((compile_once_dir fs input output cr files).2 = .ok ()
          ↔ (compile_once_dir fs input output cr files).1.failed = []))
    ∧ ((check_file_dir input chk files).1.attempted = files
      ∧ ((check_file_dir input chk files).2 = .ok ()
          ↔ (check_file_dir input chk files).1.failed = []))
    ∧ ((format_file_dir input none cok fr files).1.attempted = files
      ∧ ((format_file_dir input none cok fr files).2 = .ok ()
          ↔ (format_file_dir input none cok fr files).1.failed = []))
    ∧ ((∀ p, cok p = true) → (∀ f ∈ files, ∃ r, f = input ++ r) →
        (format_file_dir input (some out) cok fr files).1.attempted = files
        ∧ ((format_file_dir input (some out) cok fr files).2 = .ok ()
            ↔ (format_file_dir input (some out) cok fr files).1.failed
              = [])) := by
  have hie : files.isEmpty = false := by
    cases files with
    | nil => exact absurd rfl hne
    | cons a l => rfl
  refine ⟨⟨?_, ?_⟩, ⟨?_, ?_⟩, ⟨?_, ?_⟩, fun hcok hnest => ⟨?_, ?_⟩⟩
  · simp only [compile_once_dir, hie, Bool.false_eq_true, if_false]
    rw [compile_batch_attempted]
    rfl
  · simp only [compile_once_dir, hie, Bool.false_eq_true, if_false]
    exact batch_ok_iff_failed_empty _ _
  · simp only [check_file_dir, hie, Bool.false_eq_true, if_false]
    rw [check_batch_attempted]
    rfl
  · simp only [check_file_dir, hie, Bool.false_eq_true, if_false]
    exact batch_ok_iff_failed_empty _ _
  · have hgo := format_dir_go_none_complete input cok fr files ⟨[], []⟩
    simp only [format_file_dir, hie, Bool.false_eq_true, if_false, hgo.1]
    rw [hgo.2]
    rfl
  · have hgo := format_dir_go_none_complete input cok fr files ⟨[], []⟩
    simp only [format_file_dir, hie, Bool.false_eq_true, if_false, hgo.1]
    exact batch_ok_iff_failed_empty _ _
  · have hgo := format_dir_go_some_complete input out cok fr hcok files
      ⟨[], []⟩ hnest
    simp only [format_file_dir, hie, Bool.false_eq_true, if_false, hgo.1]
    rw [hgo.2]
    rfl
  · have hgo := format_dir_go_some_complete input out cok fr hcok files
      ⟨[], []⟩ hnest
    simp only [format_file_dir, hie, Bool.false_eq_true, if_false, hgo.1]
    exact batch_ok_iff_failed_empty _ _

/-- Witness for C5 amended at concrete inputs: a two-file compile batch
whose second file fails still attempts both files and the aggregate fails;
a one-file format batch with an output root and succeeding directory
creation attempts its file and succeeds. -/
theorem c5_witness :
    (compile_once_dir ⟨true, fun _ => true⟩ ["in"] none
        (fun f => if f = ["in", "bad.easl"] then .error "boom" else .ok ())
        [["in", "good.easl"], ["in", "bad.easl"]]).1.attempted
      = [["in", "good.easl"], ["in", "bad.easl"]]
    ∧ (format_file_dir ["in"] (some ["out"]) (fun _ => true)
        (fun _ => .ok ()) [["in", "a.easl"]]).1.attempted = [["in", "a.easl"]]
    ∧ (format_file_dir ["in"] (some ["out"]) (fun _ => true)
        (fun _ => .ok ()) [["in", "a.easl"]]).2 = .ok () := by
  have h := c5_batch_amended ⟨true, fun _ => true⟩ ["in"] ["out"] none
    (fun _ => true)
    (fun f => if f = ["in", "bad.easl"] then .error "boom" else .ok ())
    (fun _ => .ok ()) (fun _ => .ok ())
    [["in", "good.easl"], ["in", "bad.easl"]] (by simp)
  have h2 := c5_batch_amended ⟨true, fun _ => true⟩ ["in"] ["out"] none
    (fun _ => true)
    (fun f => if f = ["in", "bad.easl"] then .error "boom" else .ok ())
    (fun _ => .ok ()) (fun _ => .ok ()) [["in", "a.easl"]] (by simp)
  have hd := h2.2.2.2 (fun p => rfl)
    (by
      intro f hf
      simp only [List.mem_singleton] at hf
      subst hf
      exact ⟨["a.easl"], rfl⟩)
  exact ⟨h.1.1, hd.1, hd.2.mpr (by rfl)⟩
